import Mathlib

/-!
Shallow embedding of the market-data layer of the portfolio-optimizer
repository (src/quantitative_server.py and src/qualitative_server.py).

Modelling conventions:
* Prices are rationals (`ℚ`).  Python's `round(x, 2)` is modelled by
  `round2` (round-half-up on ℚ; the spec accepts either tie rule).
* A yfinance history fetch (`yf.Ticker(sym).history(period="1mo")`) is an
  explicit argument `fetch : String → Except String (List ℚ)`: the list is
  the `Close` column oldest→newest, `Except.error e` models a raised
  exception whose `str(e)` is `e`.  The CoinGecko batched request of
  `get_crypto_prices` is a single `Except String (List (String × CoinData))`
  value: the association list models the JSON object keyed by coin id.
* Python indexing `iloc[-k]` on a list of length `n` is index `n - k`.
* Division is ℚ-division, which totalises `x / 0 = 0`; the float-specific
  behaviour of a zero denominator (numpy inf/NaN versus a raised
  ZeroDivisionError) is deliberately outside this model.
-/

/-- Python's `round(x, 2)`: scale by 100, round to the nearest integer
(half-up, one of the two tie rules the spec accepts), scale back. -/
def round2 (x : ℚ) : ℚ := ((⌊x * 100 + 1 / 2⌋ : ℤ) : ℚ) / 100

/-- One configured instrument: a `{symbol, name}` entry of portfolio.yaml. -/
structure Instrument where
  symbol : String
  name : String
deriving DecidableEq

/-- The loaded portfolio.yaml configuration: one instrument list per asset
class, as read by `portfolio.get("stocks", [])` etc. -/
structure Portfolio where
  stocks : List Instrument
  crypto : List Instrument
  bonds : List Instrument
  gold : List Instrument
deriving DecidableEq

/-- One element of the result list of the yfinance-backed batch operations
(get_stock_prices / get_bond_prices / get_gold_prices): either the populated
dict `{symbol, name, price, change_1d_pct, change_1w_pct, change_1m_pct}`
or the error dict `{symbol, error}`. -/
inductive YfItem where
  | ok (symbol name : String) (price change_1d_pct change_1w_pct change_1m_pct : ℚ)
  | err (symbol error : String)
deriving DecidableEq

/-- The JSON keys of the Python dict a `YfItem` stands for. -/
def YfItem.keys : YfItem → List String
  | .ok .. => ["symbol", "name", "price", "change_1d_pct", "change_1w_pct", "change_1m_pct"]
  | .err .. => ["symbol", "error"]

/-- The `symbol` key, present in both shapes. -/
def YfItem.symbol : YfItem → String
  | .ok s _ _ _ _ _ => s
  | .err s _ => s

/-- True exactly on the populated (non-error) shape. -/
def YfItem.isOk : YfItem → Bool
  | .ok .. => true
  | .err .. => false

/-- The `change_1w_pct` field of a populated item, `none` on an error item. -/
def YfItem.change1w : YfItem → Option ℚ
  | .ok _ _ _ _ cw _ => some cw
  | .err .. => none

/-- Embedding of `get_stock_prices` (src/quantitative_server.py, lines
28-64).  Returns the wrapper key "stocks" paired with the result list. -/
def get_stock_prices (portfolio : Portfolio)
    (fetch : String → Except String (List ℚ)) : String × List YfItem :=
  ("stocks",
    portfolio.stocks.map (fun stock =>
      match fetch stock.symbol with
      | Except.error e => YfItem.err stock.symbol e
      | Except.ok hist =>
        if hist.isEmpty then YfItem.err stock.symbol "데이터 없음"
        else
          let current := hist.getD (hist.length - 1) 0
          let prev_day := if 1 < hist.length then hist.getD (hist.length - 2) 0 else current
          let week_ago := if 5 ≤ hist.length then hist.getD (hist.length - 5) 0 else hist.getD 0 0
          let month_ago := hist.getD 0 0
          YfItem.ok stock.symbol stock.name (round2 current)
            (round2 ((current - prev_day) / prev_day * 100))
            (round2 ((current - week_ago) / week_ago * 100))
            (round2 ((current - month_ago) / month_ago * 100))))

/-- Embedding of `get_bond_prices` (src/quantitative_server.py, lines
112-148), a verbatim sibling of `get_stock_prices` reading the "bonds"
configuration key and wrapping the output under "bonds". -/
def get_bond_prices (portfolio : Portfolio)
    (fetch : String → Except String (List ℚ)) : String × List YfItem :=
  ("bonds",
    portfolio.bonds.map (fun bond =>
      match fetch bond.symbol with
      | Except.error e => YfItem.err bond.symbol e
      | Except.ok hist =>
        if hist.isEmpty then YfItem.err bond.symbol "데이터 없음"
        else
          let current := hist.getD (hist.length - 1) 0
          let prev_day := if 1 < hist.length then hist.getD (hist.length - 2) 0 else current
          let week_ago := if 5 ≤ hist.length then hist.getD (hist.length - 5) 0 else hist.getD 0 0
          let month_ago := hist.getD 0 0
          YfItem.ok bond.symbol bond.name (round2 current)
            (round2 ((current - prev_day) / prev_day * 100))
            (round2 ((current - week_ago) / week_ago * 100))
            (round2 ((current - month_ago) / month_ago * 100))))

/-- Embedding of `get_gold_prices` (src/quantitative_server.py, lines
151-187), a verbatim sibling of `get_stock_prices` reading the "gold"
configuration key and wrapping the output under "gold". -/
def get_gold_prices (portfolio : Portfolio)
    (fetch : String → Except String (List ℚ)) : String × List YfItem :=
  ("gold",
    portfolio.gold.map (fun gold =>
      match fetch gold.symbol with
      | Except.error e => YfItem.err gold.symbol e
      | Except.ok hist =>
        if hist.isEmpty then YfItem.err gold.symbol "데이터 없음"
        else
          let current := hist.getD (hist.length - 1) 0
          let prev_day := if 1 < hist.length then hist.getD (hist.length - 2) 0 else current
          let week_ago := if 5 ≤ hist.length then hist.getD (hist.length - 5) 0 else hist.getD 0 0
          let month_ago := hist.getD 0 0
          YfItem.ok gold.symbol gold.name (round2 current)
            (round2 ((current - prev_day) / prev_day * 100))
            (round2 ((current - week_ago) / week_ago * 100))
            (round2 ((current - month_ago) / month_ago * 100))))

/-- One coin's entry in the CoinGecko `simple/price` payload; each field is
`none` when the corresponding JSON key ("usd", "usd_24h_change",
"usd_7d_change") is absent, matching `coin_data.get(key, 0)`. -/
structure CoinData where
  usd : Option ℚ
  usd_24h_change : Option ℚ
  usd_7d_change : Option ℚ
deriving DecidableEq

/-- One element of the `get_crypto_prices` result list: either the populated
dict `{symbol, name, price, change_24h_pct, change_7d_pct}` or the error
dict `{symbol, error}`. -/
inductive CryptoItem where
  | ok (symbol name : String) (price change_24h_pct change_7d_pct : ℚ)
  | err (symbol error : String)
deriving DecidableEq

/-- The JSON keys of the Python dict a `CryptoItem` stands for. -/
def CryptoItem.keys : CryptoItem → List String
  | .ok .. => ["symbol", "name", "price", "change_24h_pct", "change_7d_pct"]
  | .err .. => ["symbol", "error"]

/-- The `symbol` key, present in both shapes. -/
def CryptoItem.symbol : CryptoItem → String
  | .ok s _ _ _ _ => s
  | .err s _ => s

/-- True exactly on the populated (non-error) shape. -/
def CryptoItem.isOk : CryptoItem → Bool
  | .ok .. => true
  | .err .. => false

/-- Embedding of `get_crypto_prices` (src/quantitative_server.py, lines
67-109).  `fetch` is the outcome of the single batched CoinGecko request
(`Except.error e` models a raised exception caught by the outer handler).
The result is the "crypto" list paired with the optional top-level "error"
value of the exception branch. -/
def get_crypto_prices (portfolio : Portfolio)
    (fetch : Except String (List (String × CoinData))) :
    List CryptoItem × Option String :=
  let crypto_ids := portfolio.crypto.map (fun c => c.symbol)
  if crypto_ids.isEmpty then ([], none)
  else
    match fetch with
    | Except.error e => ([], some e)
    | Except.ok data =>
      (portfolio.crypto.map (fun crypto =>
        match data.lookup crypto.symbol with
        | some coin_data =>
          CryptoItem.ok crypto.symbol crypto.name (coin_data.usd.getD 0)
            (round2 (coin_data.usd_24h_change.getD 0))
            (round2 (coin_data.usd_7d_change.getD 0))
        | none => CryptoItem.err crypto.symbol "데이터 없음"), none)

/-- Result of `get_exchange_rate`: either the populated dict
`{pair, rate, change_1d_pct, change_1w_pct, change_1m_pct}` or `{error}`. -/
inductive FxResult where
  | ok (pair : String) (rate change_1d_pct change_1w_pct change_1m_pct : ℚ)
  | err (error : String)
deriving DecidableEq

/-- The `change_1w_pct` field of a populated FX record, `none` on error. -/
def FxResult.change1w : FxResult → Option ℚ
  | .ok _ _ _ cw _ => some cw
  | .err _ => none

/-- Embedding of `get_exchange_rate` (src/qualitative_server.py, lines
20-47).  `fetch` is the yfinance history of "USDKRW=X". -/
def get_exchange_rate (fetch : Except String (List ℚ)) : FxResult :=
  match fetch with
  | Except.error e => FxResult.err e
  | Except.ok hist =>
    if hist.isEmpty then FxResult.err "환율 데이터 없음"
    else
      let current := hist.getD (hist.length - 1) 0
      let prev_day := if 1 < hist.length then hist.getD (hist.length - 2) 0 else current
      let week_ago := if 5 ≤ hist.length then hist.getD (hist.length - 5) 0 else hist.getD 0 0
      let month_ago := hist.getD 0 0
      FxResult.ok "USD/KRW" (round2 current)
        (round2 ((current - prev_day) / prev_day * 100))
        (round2 ((current - week_ago) / week_ago * 100))
        (round2 ((current - month_ago) / month_ago * 100))

/-- Embedding of `_interpret_fear_greed` (src/qualitative_server.py, lines
87-98); the score is a Python float, modelled as ℚ. -/
def interpret_fear_greed (score : ℚ) : String :=
  if score ≤ 25 then "극단적 공포 - 매수 기회일 수 있음"
  else if score ≤ 45 then "공포 - 시장 불안정"
  else if score ≤ 55 then "중립 - 균형 잡힌 상태"
  else if score ≤ 75 then "탐욕 - 주의 필요"
  else "극단적 탐욕 - 과열 상태, 조정 가능성"

/-- Helper: rounding zero gives zero. -/
theorem round2_zero : round2 0 = 0 := by norm_num [round2]

/-- Helper: `getD` on a mapped list at an in-range index. -/
theorem getD_map_of_lt {α β : Type} (f : α → β) (l : List α) (i : Nat) (d : β) (d0 : α)
    (hi : i < l.length) : (l.map f).getD i d = f (l.getD i d0) := by
  induction l generalizing i with
  | nil => simp at hi
  | cons a t ih =>
    cases i with
    | zero => simp
    | succ n => simpa using ih n (by simpa using hi)

/-- Helper: for a list with at least 5 elements, the 5th element counted from
the end is the element at index `length - 5`. -/
theorem reverse_getD_four (l : List ℚ) (hlen : 5 ≤ l.length) (d : ℚ) :
    l.reverse.getD 4 d = l.getD (l.length - 5) d := by
  have h1 : (4 : ℕ) < l.length := by omega
  rw [List.getD_eq_getElem?_getD, List.getD_eq_getElem?_getD, List.getElem?_reverse h1]
  have h2 : l.length - 1 - 4 = l.length - 5 := by omega
  rw [h2]

/-- The 1-week reference of the amended claim C1: the 5th element counted
from the end of the series (4 positions before the last) when at least 5
observations exist, otherwise the first element. -/
def weekReference (hist : List ℚ) : ℚ :=
  if 5 ≤ hist.length then hist.reverse.getD 4 0 else hist.getD 0 0

/-- The populated 1-week change a series should yield under the amended
reference policy of claim C1. -/
def amendedWeekChange (hist : List ℚ) : Option ℚ :=
  some (round2 ((hist.getD (hist.length - 1) 0 - weekReference hist) / weekReference hist * 100))

/-- C1 (counterexample): on the 6-element series `[90, 91, 92, 93, 94, 95]`
the element 5 positions before the last element is the one at index
`6 - 1 - 5 = 0`, i.e. `90`, yet `get_exchange_rate` does not report the
1-week change computed from the reference `90`: the claimed reference
selection is refuted at this input. -/
theorem C1_counterexample :
    (([90, 91, 92, 93, 94, 95] : List ℚ).getD (6 - 1 - 5) 0 = 90) ∧
    FxResult.change1w (get_exchange_rate (Except.ok [90, 91, 92, 93, 94, 95])) ≠
      some (round2 ((95 - 90) / 90 * 100)) := by
  constructor
  · norm_num
  · norm_num [get_exchange_rate, FxResult.change1w, round2]

/-- C1 (amended): for every fetched non-empty price series, the 1-week
reference used by the yfinance-backed operations (get_stock_prices,
get_bond_prices, get_gold_prices) and by get_exchange_rate is the 5th
element counted from the end (4 positions before the last element) when the
series has at least 5 elements, and the first element of the series
otherwise. -/
theorem C1_theorem (inst : Instrument) (h : List ℚ) (hne : h ≠ []) :
    ((get_stock_prices ⟨[inst], [], [], []⟩ (fun _ => Except.ok h)).2.map YfItem.change1w =
      [amendedWeekChange h]) ∧
    ((get_bond_prices ⟨[], [], [inst], []⟩ (fun _ => Except.ok h)).2.map YfItem.change1w =
      [amendedWeekChange h]) ∧
    ((get_gold_prices ⟨[], [], [], [inst]⟩ (fun _ => Except.ok h)).2.map YfItem.change1w =
      [amendedWeekChange h]) ∧
    (FxResult.change1w (get_exchange_rate (Except.ok h)) = amendedWeekChange h) := by
  have hE : h.isEmpty = false := by simpa [List.isEmpty_iff] using hne
  have key : weekReference h = if 5 ≤ h.length then h.getD (h.length - 5) 0 else h.getD 0 0 := by
    by_cases hc : 5 ≤ h.length
    · rw [weekReference, if_pos hc, if_pos hc, reverse_getD_four h hc]
    · rw [weekReference, if_neg hc, if_neg hc]
  refine ⟨?_, ?_, ?_, ?_⟩ <;>
    simp [get_stock_prices, get_bond_prices, get_gold_prices, get_exchange_rate, hE,
      YfItem.change1w, FxResult.change1w, amendedWeekChange, key]

/-- C1 (witness): the amended reference policy evaluated on the concrete
series `[1, 2, 3, 4, 5, 6]`. -/
theorem C1_witness :
    ((get_stock_prices ⟨[⟨"A", "B"⟩], [], [], []⟩
        (fun _ => Except.ok [1, 2, 3, 4, 5, 6])).2.map YfItem.change1w =
      [amendedWeekChange [1, 2, 3, 4, 5, 6]]) ∧
    ((get_bond_prices ⟨[], [], [⟨"A", "B"⟩], []⟩
        (fun _ => Except.ok [1, 2, 3, 4, 5, 6])).2.map YfItem.change1w =
      [amendedWeekChange [1, 2, 3, 4, 5, 6]]) ∧
    ((get_gold_prices ⟨[], [], [], [⟨"A", "B"⟩]⟩
        (fun _ => Except.ok [1, 2, 3, 4, 5, 6])).2.map YfItem.change1w =
      [amendedWeekChange [1, 2, 3, 4, 5, 6]]) ∧
    (FxResult.change1w (get_exchange_rate (Except.ok [1, 2, 3, 4, 5, 6])) =
      amendedWeekChange [1, 2, 3, 4, 5, 6]) :=
  C1_theorem ⟨"A", "B"⟩ [1, 2, 3, 4, 5, 6] (by simp)

/-- Helper: each get_stock_prices element carries its instrument's symbol. -/
theorem stock_symbols (p : Portfolio) (f : String → Except String (List ℚ)) :
    (get_stock_prices p f).2.map YfItem.symbol = p.stocks.map Instrument.symbol := by
  rw [get_stock_prices]
  simp only [List.map_map]
  apply List.map_congr_left
  intro s _
  simp only [Function.comp]
  cases hf : f s.symbol with
  | error e => simp [YfItem.symbol]
  | ok hist => by_cases hE : hist.isEmpty <;> simp [hE, YfItem.symbol]

/-- Helper: each get_bond_prices element carries its instrument's symbol. -/
theorem bond_symbols (p : Portfolio) (f : String → Except String (List ℚ)) :
    (get_bond_prices p f).2.map YfItem.symbol = p.bonds.map Instrument.symbol := by
  rw [get_bond_prices]
  simp only [List.map_map]
  apply List.map_congr_left
  intro s _
  simp only [Function.comp]
  cases hf : f s.symbol with
  | error e => simp [YfItem.symbol]
  | ok hist => by_cases hE : hist.isEmpty <;> simp [hE, YfItem.symbol]

/-- Helper: each get_gold_prices element carries its instrument's symbol. -/
theorem gold_symbols (p : Portfolio) (f : String → Except String (List ℚ)) :
    (get_gold_prices p f).2.map YfItem.symbol = p.gold.map Instrument.symbol := by
  rw [get_gold_prices]
  simp only [List.map_map]
  apply List.map_congr_left
  intro s _
  simp only [Function.comp]
  cases hf : f s.symbol with
  | error e => simp [YfItem.symbol]
  | ok hist => by_cases hE : hist.isEmpty <;> simp [hE, YfItem.symbol]

/-- Helper: an always-raising yfinance fetch turns every stock entry into an
error record with the exception's message. -/
theorem stock_total_failure (p : Portfolio) (msg : String) :
    (get_stock_prices p (fun _ => Except.error msg)).2 =
      p.stocks.map (fun s => YfItem.err s.symbol msg) := by
  rw [get_stock_prices]

/-- Helper: an always-raising yfinance fetch turns every bond entry into an
error record with the exception's message. -/
theorem bond_total_failure (p : Portfolio) (msg : String) :
    (get_bond_prices p (fun _ => Except.error msg)).2 =
      p.bonds.map (fun s => YfItem.err s.symbol msg) := by
  rw [get_bond_prices]

/-- Helper: an always-raising yfinance fetch turns every gold entry into an
error record with the exception's message. -/
theorem gold_total_failure (p : Portfolio) (msg : String) :
    (get_gold_prices p (fun _ => Except.error msg)).2 =
      p.gold.map (fun s => YfItem.err s.symbol msg) := by
  rw [get_gold_prices]

/-- Helper: an empty configured crypto list short-circuits to an empty
result with no error key, whatever the upstream outcome. -/
theorem crypto_empty_config (p : Portfolio)
    (fetch : Except String (List (String × CoinData))) (hq : p.crypto = []) :
    get_crypto_prices p fetch = ([], none) := by
  cases fetch with
  | error e => rw [get_crypto_prices, hq]; rfl
  | ok data => rw [get_crypto_prices, hq]; rfl

/-- Helper: with a non-empty configured crypto list, a raised upstream
exception yields the empty list together with the top-level error value. -/
theorem crypto_exception (p : Portfolio) (e : String) (hne : p.crypto ≠ []) :
    get_crypto_prices p (Except.error e) = ([], some e) := by
  have hE : (p.crypto.map (fun c => c.symbol)).isEmpty = false := by
    simp [List.isEmpty_iff, hne]
  rw [get_crypto_prices]
  simp [hE]

/-- Helper: with a non-empty configured crypto list and a delivered payload,
each element of the crypto result carries its instrument's symbol. -/
theorem crypto_symbols (p : Portfolio) (data : List (String × CoinData))
    (hne : p.crypto ≠ []) :
    (get_crypto_prices p (Except.ok data)).1.map CryptoItem.symbol =
      p.crypto.map Instrument.symbol := by
  have hE : (p.crypto.map (fun c => c.symbol)).isEmpty = false := by
    simp [List.isEmpty_iff, hne]
  rw [get_crypto_prices]
  simp only [hE, Bool.false_eq_true, if_false, List.map_map]
  apply List.map_congr_left
  intro c _
  simp only [Function.comp]
  cases hl : data.lookup c.symbol <;> simp [CryptoItem.symbol]

/-- C2 (counterexample): with one configured crypto instrument and a raised
upstream exception, get_crypto_prices returns a result list of length 0,
not a 1-element list of error records (the exception is reported as a
top-level error value instead). -/
theorem C2_counterexample :
    ((get_crypto_prices ⟨[], [⟨"bitcoin", "BTC"⟩], [], []⟩ (Except.error "오류")).1.length = 0) ∧
    (([⟨"bitcoin", "BTC"⟩] : List Instrument).length = 1) ∧
    ((get_crypto_prices ⟨[], [⟨"bitcoin", "BTC"⟩], [], []⟩ (Except.error "오류")).2 = some "오류") := by
  refine ⟨?_, rfl, ?_⟩ <;> simp [get_crypto_prices]

/-- C2 (amended): get_stock_prices, get_bond_prices and get_gold_prices
always return a list of length equal to the configured instrument count,
preserving configuration order; an empty configured list yields an empty
list for all four batch operations; total upstream failure yields a full
list of error records for the three yfinance operations, but for
get_crypto_prices a raised upstream exception yields an empty list plus a
top-level error value, while a successfully delivered payload preserves the
configured length and order. -/
theorem C2_theorem (p q : Portfolio) (f : String → Except String (List ℚ))
    (data : List (String × CoinData)) (e msg : String)
    (hp : p.crypto ≠ []) (hq : q.crypto = []) :
    ((get_stock_prices p f).2.map YfItem.symbol = p.stocks.map Instrument.symbol) ∧
    ((get_bond_prices p f).2.map YfItem.symbol = p.bonds.map Instrument.symbol) ∧
    ((get_gold_prices p f).2.map YfItem.symbol = p.gold.map Instrument.symbol) ∧
    ((get_stock_prices p (fun _ => Except.error msg)).2 =
      p.stocks.map (fun s => YfItem.err s.symbol msg)) ∧
    ((get_bond_prices p (fun _ => Except.error msg)).2 =
      p.bonds.map (fun s => YfItem.err s.symbol msg)) ∧
    ((get_gold_prices p (fun _ => Except.error msg)).2 =
      p.gold.map (fun s => YfItem.err s.symbol msg)) ∧
    ((get_crypto_prices p (Except.ok data)).1.map CryptoItem.symbol =
      p.crypto.map Instrument.symbol) ∧
    (get_crypto_prices q (Except.error e) = ([], none)) ∧
    (get_crypto_prices q (Except.ok data) = ([], none)) ∧
    (get_crypto_prices p (Except.error e) = ([], some e)) :=
  ⟨stock_symbols p f, bond_symbols p f, gold_symbols p f,
    stock_total_failure p msg, bond_total_failure p msg, gold_total_failure p msg,
    crypto_symbols p data hp,
    crypto_empty_config q (Except.error e) hq, crypto_empty_config q (Except.ok data) hq,
    crypto_exception p e hp⟩

/-- C2 (witness): the amended batch contract evaluated on concrete
portfolios, a concrete payload and concrete error messages. -/
theorem C2_witness :
    ((get_stock_prices ⟨[⟨"SPY", "SP500"⟩], [⟨"bitcoin", "BTC"⟩], [], []⟩
        (fun _ => Except.ok [1, 2])).2.map YfItem.symbol =
      ([⟨"SPY", "SP500"⟩] : List Instrument).map Instrument.symbol) ∧
    ((get_bond_prices ⟨[⟨"SPY", "SP500"⟩], [⟨"bitcoin", "BTC"⟩], [], []⟩
        (fun _ => Except.ok [1, 2])).2.map YfItem.symbol =
      ([] : List Instrument).map Instrument.symbol) ∧
    ((get_gold_prices ⟨[⟨"SPY", "SP500"⟩], [⟨"bitcoin", "BTC"⟩], [], []⟩
        (fun _ => Except.ok [1, 2])).2.map YfItem.symbol =
      ([] : List Instrument).map Instrument.symbol) ∧
    ((get_stock_prices ⟨[⟨"SPY", "SP500"⟩], [⟨"bitcoin", "BTC"⟩], [], []⟩
        (fun _ => Except.error "정전")).2 =
      ([⟨"SPY", "SP500"⟩] : List Instrument).map (fun s => YfItem.err s.symbol "정전")) ∧
    ((get_bond_prices ⟨[⟨"SPY", "SP500"⟩], [⟨"bitcoin", "BTC"⟩], [], []⟩
        (fun _ => Except.error "정전")).2 =
      ([] : List Instrument).map (fun s => YfItem.err s.symbol "정전")) ∧
    ((get_gold_prices ⟨[⟨"SPY", "SP500"⟩], [⟨"bitcoin", "BTC"⟩], [], []⟩
        (fun _ => Except.error "정전")).2 =
      ([] : List Instrument).map (fun s => YfItem.err s.symbol "정전")) ∧
    ((get_crypto_prices ⟨[⟨"SPY", "SP500"⟩], [⟨"bitcoin", "BTC"⟩], [], []⟩
        (Except.ok [])).1.map CryptoItem.symbol =
      ([⟨"bitcoin", "BTC"⟩] : List Instrument).map Instrument.symbol) ∧
    (get_crypto_prices ⟨[], [], [], []⟩ (Except.error "중단") = ([], none)) ∧
    (get_crypto_prices ⟨[], [], [], []⟩ (Except.ok []) = ([], none)) ∧
    (get_crypto_prices ⟨[⟨"SPY", "SP500"⟩], [⟨"bitcoin", "BTC"⟩], [], []⟩
        (Except.error "중단") = ([], some "중단")) :=
  C2_theorem ⟨[⟨"SPY", "SP500"⟩], [⟨"bitcoin", "BTC"⟩], [], []⟩ ⟨[], [], [], []⟩
    (fun _ => Except.ok [1, 2]) [] "중단" "정전" (by simp) rfl

/-- C3 (counterexample): a crypto batch element produced from a delivered
payload entry is populated with the keys {symbol, name, price,
change_24h_pct, change_7d_pct}, which is neither the claimed populated
shape {symbol, name, price, change_1d_pct, change_1w_pct, change_1m_pct}
nor the error shape {symbol, error}. -/
theorem C3_counterexample :
    ((get_crypto_prices ⟨[], [⟨"bitcoin", "BTC"⟩], [], []⟩
        (Except.ok [("bitcoin", ⟨some 50000, some 1, some 2⟩)])).1.map CryptoItem.keys =
      [["symbol", "name", "price", "change_24h_pct", "change_7d_pct"]]) ∧
    ¬ (["symbol", "name", "price", "change_24h_pct", "change_7d_pct"] =
        ["symbol", "name", "price", "change_1d_pct", "change_1w_pct", "change_1m_pct"] ∨
      ["symbol", "name", "price", "change_24h_pct", "change_7d_pct"] =
        ["symbol", "error"]) := by
  constructor
  · simp [get_crypto_prices, CryptoItem.keys]
  · decide

/-- C3 (amended): every element of the stock, bond and gold batch result
lists is exactly one of the two shapes {symbol, name, price, change_1d_pct,
change_1w_pct, change_1m_pct} or {symbol, error}; every element of the
crypto batch result list is exactly one of {symbol, name, price,
change_24h_pct, change_7d_pct} or {symbol, error}. -/
theorem C3_theorem (p : Portfolio) (f : String → Except String (List ℚ))
    (fc : Except String (List (String × CoinData))) (item : YfItem) (citem : CryptoItem)
    (hy : item ∈ (get_stock_prices p f).2 ∨ item ∈ (get_bond_prices p f).2 ∨
      item ∈ (get_gold_prices p f).2)
    (hc : citem ∈ (get_crypto_prices p fc).1) :
    (item.keys = ["symbol", "name", "price", "change_1d_pct", "change_1w_pct", "change_1m_pct"] ∨
      item.keys = ["symbol", "error"]) ∧
    (citem.keys = ["symbol", "name", "price", "change_24h_pct", "change_7d_pct"] ∨
      citem.keys = ["symbol", "error"]) := by
  constructor
  · cases item <;> simp [YfItem.keys]
  · cases citem <;> simp [CryptoItem.keys]

/-- C3 (witness): the two-shape contract evaluated on a concrete failing
stock fetch and a concrete crypto payload missing the configured id. -/
theorem C3_witness :
    ((YfItem.err "SPY" "끊김").keys =
        ["symbol", "name", "price", "change_1d_pct", "change_1w_pct", "change_1m_pct"] ∨
      (YfItem.err "SPY" "끊김").keys = ["symbol", "error"]) ∧
    ((CryptoItem.err "bitcoin" "데이터 없음").keys =
        ["symbol", "name", "price", "change_24h_pct", "change_7d_pct"] ∨
      (CryptoItem.err "bitcoin" "데이터 없음").keys = ["symbol", "error"]) :=
  C3_theorem ⟨[⟨"SPY", "SP500"⟩], [⟨"bitcoin", "BTC"⟩], [], []⟩
    (fun _ => Except.error "끊김") (Except.ok [])
    (YfItem.err "SPY" "끊김") (CryptoItem.err "bitcoin" "데이터 없음")
    (Or.inl (by simp [get_stock_prices])) (by simp [get_crypto_prices])

/-- C5 (counterexample): for the 6-element series [90, 91, 92, 93, 94, 95],
the computed change_1w_pct is not round((95 - 90) / 90 * 100, 2): the
element at index 0 (value 90) is not the reference the code uses. -/
theorem C5_counterexample :
    (get_stock_prices ⟨[⟨"SPY", "SP500"⟩], [], [], []⟩
        (fun _ => Except.ok [90, 91, 92, 93, 94, 95])).2.map YfItem.change1w ≠
      [some (round2 ((95 - 90) / 90 * 100))] := by
  norm_num [get_stock_prices, YfItem.change1w, round2]

/-- C5 (amended): for the 6-element series [90, 91, 92, 93, 94, 95], the
computed change_1w_pct uses the element at index 1 (value 91) as its
reference: it equals round((95 - 91) / 91 * 100, 2) = 4.4. -/
theorem C5_theorem :
    ((get_stock_prices ⟨[⟨"SPY", "SP500"⟩], [], [], []⟩
        (fun _ => Except.ok [90, 91, 92, 93, 94, 95])).2.map YfItem.change1w =
      [some (round2 ((95 - 91) / 91 * 100))]) ∧
    (([90, 91, 92, 93, 94, 95] : List ℚ).getD 1 0 = 91) ∧
    (round2 ((95 - 91) / 91 * 100) = 4.4) := by
  refine ⟨?_, by norm_num, by norm_num [round2]⟩
  norm_num [get_stock_prices, YfItem.change1w]

/-- C6 (confirmed): for every non-empty price series the stock operation
produces a populated record (never an error and never an indexing fault),
and for a series of length 1 the price is the rounded sole observation and
all three change fields are 0. -/
theorem C6_theorem (inst : Instrument) (h : List ℚ) (hne : h ≠ []) (v : ℚ) :
    ((get_stock_prices ⟨[inst], [], [], []⟩ (fun _ => Except.ok h)).2.map YfItem.isOk =
      [true]) ∧
    ((get_stock_prices ⟨[inst], [], [], []⟩ (fun _ => Except.ok [v])).2 =
      [YfItem.ok inst.symbol inst.name (round2 v) 0 0 0]) := by
  have hE : h.isEmpty = false := by simpa [List.isEmpty_iff] using hne
  constructor
  · simp [get_stock_prices, hE, YfItem.isOk]
  · norm_num [get_stock_prices, round2_zero]

/-- C6 (witness): the total-computation property evaluated on the concrete
series [2, 3] and the concrete length-1 series [5]. -/
theorem C6_witness :
    ((get_stock_prices ⟨[⟨"A", "B"⟩], [], [], []⟩ (fun _ => Except.ok [2, 3])).2.map
      YfItem.isOk = [true]) ∧
    ((get_stock_prices ⟨[⟨"A", "B"⟩], [], [], []⟩ (fun _ => Except.ok [5])).2 =
      [YfItem.ok "A" "B" (round2 5) 0 0 0]) :=
  C6_theorem ⟨"A", "B"⟩ [2, 3] (by simp) 5

/-- Helper: element i of a delivered crypto batch is determined by the
payload lookup of the configured id at position i. -/
theorem crypto_getD (p : Portfolio) (data : List (String × CoinData)) (hne : p.crypto ≠ [])
    (i : Nat) (hi : i < p.crypto.length) :
    (get_crypto_prices p (Except.ok data)).1.getD i (CryptoItem.err "" "") =
      (match data.lookup ((p.crypto.getD i ⟨"", ""⟩).symbol) with
       | some coin_data =>
         CryptoItem.ok ((p.crypto.getD i ⟨"", ""⟩).symbol) ((p.crypto.getD i ⟨"", ""⟩).name)
           (coin_data.usd.getD 0) (round2 (coin_data.usd_24h_change.getD 0))
           (round2 (coin_data.usd_7d_change.getD 0))
       | none => CryptoItem.err ((p.crypto.getD i ⟨"", ""⟩).symbol) "데이터 없음") := by
  have hE : (p.crypto.map (fun c => c.symbol)).isEmpty = false := by
    simp [List.isEmpty_iff, hne]
  rw [get_crypto_prices]
  simp only [hE, Bool.false_eq_true, if_false]
  exact getD_map_of_lt _ _ i _ ⟨"", ""⟩ hi

/-- C7 (confirmed): in the crypto batch operation the result list has one
entry per configured id in configuration order; a configured id absent from
the delivered payload yields exactly the error record with the code's
"no data" message ("데이터 없음"), while a configured id present in the
payload yields a populated record. -/
theorem C7_theorem (p : Portfolio) (data : List (String × CoinData)) (hne : p.crypto ≠ [])
    (i j : Nat) (hi : i < p.crypto.length) (hj : j < p.crypto.length)
    (hnone : data.lookup ((p.crypto.getD i ⟨"", ""⟩).symbol) = none)
    (hsome : (data.lookup ((p.crypto.getD j ⟨"", ""⟩).symbol)).isSome = true) :
    ((get_crypto_prices p (Except.ok data)).1.length = p.crypto.length) ∧
    ((get_crypto_prices p (Except.ok data)).1.map CryptoItem.symbol =
      p.crypto.map Instrument.symbol) ∧
    ((get_crypto_prices p (Except.ok data)).1.getD i (CryptoItem.err "" "") =
      CryptoItem.err ((p.crypto.getD i ⟨"", ""⟩).symbol) "데이터 없음") ∧
    (CryptoItem.isOk ((get_crypto_prices p (Except.ok data)).1.getD j
      (CryptoItem.err "" "")) = true) := by
  refine ⟨?_, crypto_symbols p data hne, ?_, ?_⟩
  · simpa using congrArg List.length (crypto_symbols p data hne)
  · rw [crypto_getD p data hne i hi, hnone]
  · rw [crypto_getD p data hne j hj]
    obtain ⟨cd, hcd⟩ := Option.isSome_iff_exists.mp hsome
    rw [hcd]
    rfl

/-- C7 (witness): the per-id contract evaluated on a two-coin configuration
whose payload delivers bitcoin but omits dogecoin. -/
theorem C7_witness :
    ((get_crypto_prices ⟨[], [⟨"bitcoin", "BTC"⟩, ⟨"dogecoin", "DOGE"⟩], [], []⟩
        (Except.ok [("bitcoin", ⟨some 50000, some 1, some 2⟩)])).1.length =
      (Portfolio.crypto ⟨[], [⟨"bitcoin", "BTC"⟩, ⟨"dogecoin", "DOGE"⟩], [], []⟩).length) ∧
    ((get_crypto_prices ⟨[], [⟨"bitcoin", "BTC"⟩, ⟨"dogecoin", "DOGE"⟩], [], []⟩
        (Except.ok [("bitcoin", ⟨some 50000, some 1, some 2⟩)])).1.map CryptoItem.symbol =
      (Portfolio.crypto ⟨[], [⟨"bitcoin", "BTC"⟩, ⟨"dogecoin", "DOGE"⟩], [], []⟩).map
        Instrument.symbol) ∧
    ((get_crypto_prices ⟨[], [⟨"bitcoin", "BTC"⟩, ⟨"dogecoin", "DOGE"⟩], [], []⟩
        (Except.ok [("bitcoin", ⟨some 50000, some 1, some 2⟩)])).1.getD 1
        (CryptoItem.err "" "") =
      CryptoItem.err (((Portfolio.crypto ⟨[], [⟨"bitcoin", "BTC"⟩, ⟨"dogecoin", "DOGE"⟩], [],
        []⟩).getD 1 ⟨"", ""⟩).symbol) "데이터 없음") ∧
    (CryptoItem.isOk ((get_crypto_prices ⟨[], [⟨"bitcoin", "BTC"⟩, ⟨"dogecoin", "DOGE"⟩], [],
        []⟩ (Except.ok [("bitcoin", ⟨some 50000, some 1, some 2⟩)])).1.getD 0
        (CryptoItem.err "" "")) = true) :=
  C7_theorem ⟨[], [⟨"bitcoin", "BTC"⟩, ⟨"dogecoin", "DOGE"⟩], [], []⟩
    [("bitcoin", ⟨some 50000, some 1, some 2⟩)] (by simp) 1 0 (by simp) (by simp) rfl rfl

/-- C8 (confirmed): the fear-greed classifier is total on ℚ scores and maps
each band to its bucket, with each boundary value (25, 45, 55, 75)
belonging to the lower bucket: scores up to 25 to extreme fear, up to 45 to
fear, up to 55 to neutral, up to 75 to greed, greater to extreme greed
(the Korean strings of the source). -/
theorem C8_theorem (s : ℚ) :
    (s ≤ 25 → interpret_fear_greed s = "극단적 공포 - 매수 기회일 수 있음") ∧
    (25 < s → s ≤ 45 → interpret_fear_greed s = "공포 - 시장 불안정") ∧
    (45 < s → s ≤ 55 → interpret_fear_greed s = "중립 - 균형 잡힌 상태") ∧
    (55 < s → s ≤ 75 → interpret_fear_greed s = "탐욕 - 주의 필요") ∧
    (75 < s → interpret_fear_greed s = "극단적 탐욕 - 과열 상태, 조정 가능성") := by
  refine ⟨fun h1 => ?_, fun h1 h2 => ?_, fun h1 h2 => ?_, fun h1 h2 => ?_, fun h1 => ?_⟩ <;>
    rw [interpret_fear_greed]
  · rw [if_pos h1]
  · rw [if_neg (not_le.mpr h1), if_pos h2]
  · rw [if_neg (not_le.mpr (by linarith)), if_neg (not_le.mpr h1), if_pos h2]
  · rw [if_neg (not_le.mpr (by linarith)), if_neg (not_le.mpr (by linarith)),
      if_neg (not_le.mpr h1), if_pos h2]
  · rw [if_neg (not_le.mpr (by linarith)), if_neg (not_le.mpr (by linarith)),
      if_neg (not_le.mpr (by linarith)), if_neg (not_le.mpr h1)]

/-- C8 (witness): the classifier evaluated at the boundary score 25, the
just-above-boundary score 26 and the maximal score 100. -/
theorem C8_witness :
    interpret_fear_greed 25 = "극단적 공포 - 매수 기회일 수 있음" ∧
    interpret_fear_greed 26 = "공포 - 시장 불안정" ∧
    interpret_fear_greed 100 = "극단적 탐욕 - 과열 상태, 조정 가능성" :=
  ⟨(C8_theorem 25).1 (by norm_num),
   (C8_theorem 26).2.1 (by norm_num) (by norm_num),
   (C8_theorem 100).2.2.2.2 (by norm_num)⟩

/-- C9 (confirmed): a configured id present in the payload whose entry lacks
the "usd" field yields a populated record with price 0 (not an error
record), and any change field whose key is absent is 0. -/
theorem C9_theorem (p : Portfolio) (data : List (String × CoinData)) (hne : p.crypto ≠ [])
    (i : Nat) (hi : i < p.crypto.length) (cd : CoinData)
    (hlook : data.lookup ((p.crypto.getD i ⟨"", ""⟩).symbol) = some cd)
    (husd : cd.usd = none) :
    ((get_crypto_prices p (Except.ok data)).1.getD i (CryptoItem.err "" "") =
      CryptoItem.ok ((p.crypto.getD i ⟨"", ""⟩).symbol) ((p.crypto.getD i ⟨"", ""⟩).name) 0
        (round2 (cd.usd_24h_change.getD 0)) (round2 (cd.usd_7d_change.getD 0))) ∧
    (cd.usd_24h_change = none → round2 (cd.usd_24h_change.getD 0) = 0) ∧
    (cd.usd_7d_change = none → round2 (cd.usd_7d_change.getD 0) = 0) := by
  refine ⟨?_, fun h24 => by rw [h24]; exact round2_zero,
    fun h7 => by rw [h7]; exact round2_zero⟩
  rw [crypto_getD p data hne i hi, hlook]
  simp [husd]

/-- C9 (witness): the missing-"usd" behaviour evaluated on a concrete
payload entry that also lacks the 24h change key but carries a 7d change. -/
theorem C9_witness :
    ((get_crypto_prices ⟨[], [⟨"ripple", "XRP"⟩], [], []⟩
        (Except.ok [("ripple", ⟨none, none, some 3⟩)])).1.getD 0 (CryptoItem.err "" "") =
      CryptoItem.ok (((Portfolio.crypto ⟨[], [⟨"ripple", "XRP"⟩], [], []⟩).getD 0
          ⟨"", ""⟩).symbol)
        (((Portfolio.crypto ⟨[], [⟨"ripple", "XRP"⟩], [], []⟩).getD 0 ⟨"", ""⟩).name) 0
        (round2 (CoinData.usd_24h_change ⟨none, none, some 3⟩ |>.getD 0))
        (round2 (CoinData.usd_7d_change ⟨none, none, some 3⟩ |>.getD 0))) ∧
    (CoinData.usd_24h_change ⟨none, none, some 3⟩ = none →
      round2 (CoinData.usd_24h_change ⟨none, none, some 3⟩ |>.getD 0) = 0) ∧
    (CoinData.usd_7d_change ⟨none, none, some 3⟩ = none →
      round2 (CoinData.usd_7d_change ⟨none, none, some 3⟩ |>.getD 0) = 0) :=
  C9_theorem ⟨[], [⟨"ripple", "XRP"⟩], [], []⟩ [("ripple", ⟨none, none, some 3⟩)]
    (by simp) 0 (by simp) ⟨none, none, some 3⟩ rfl rfl

/-- C10 (confirmed): get_stock_prices, get_bond_prices and get_gold_prices
produce identical result lists when their configured instrument lists and
fetched series coincide, differing only in the configuration key they read
and in the key wrapping the output list. -/
theorem C10_theorem (p q r : Portfolio) (f : String → Except String (List ℚ))
    (hb : q.bonds = p.stocks) (hg : r.gold = p.stocks) :
    ((get_bond_prices q f).2 = (get_stock_prices p f).2) ∧
    ((get_gold_prices r f).2 = (get_stock_prices p f).2) ∧
    ((get_stock_prices p f).1 = "stocks") ∧
    ((get_bond_prices q f).1 = "bonds") ∧
    ((get_gold_prices r f).1 = "gold") := by
  refine ⟨?_, ?_, rfl, rfl, rfl⟩
  · rw [get_bond_prices, get_stock_prices]
    show q.bonds.map _ = p.stocks.map _
    rw [hb]
  · rw [get_gold_prices, get_stock_prices]
    show r.gold.map _ = p.stocks.map _
    rw [hg]

/-- C10 (witness): the three yfinance batch operations evaluated on the same
single-instrument configuration and the same fetched series. -/
theorem C10_witness :
    ((get_bond_prices ⟨[], [], [⟨"TLT", "국채"⟩], []⟩ (fun _ => Except.ok [1, 2, 3])).2 =
      (get_stock_prices ⟨[⟨"TLT", "국채"⟩], [], [], []⟩ (fun _ => Except.ok [1, 2, 3])).2) ∧
    ((get_gold_prices ⟨[], [], [], [⟨"TLT", "국채"⟩]⟩ (fun _ => Except.ok [1, 2, 3])).2 =
      (get_stock_prices ⟨[⟨"TLT", "국채"⟩], [], [], []⟩ (fun _ => Except.ok [1, 2, 3])).2) ∧
    ((get_stock_prices ⟨[⟨"TLT", "국채"⟩], [], [], []⟩ (fun _ => Except.ok [1, 2, 3])).1 =
      "stocks") ∧
    ((get_bond_prices ⟨[], [], [⟨"TLT", "국채"⟩], []⟩ (fun _ => Except.ok [1, 2, 3])).1 =
      "bonds") ∧
    ((get_gold_prices ⟨[], [], [], [⟨"TLT", "국채"⟩]⟩ (fun _ => Except.ok [1, 2, 3])).1 =
      "gold") :=
  C10_theorem ⟨[⟨"TLT", "국채"⟩], [], [], []⟩ ⟨[], [], [⟨"TLT", "국채"⟩], []⟩
    ⟨[], [], [], [⟨"TLT", "국채"⟩]⟩ (fun _ => Except.ok [1, 2, 3]) rfl rfl
